import Mathlib

/-!
Verification of the EZVIZ Cloud China Home Assistant integration
(`custom_components/ezviz_cloud`): a shallow embedding of the API client
token lifecycle (`api.py`), the request retry engine, the device facade,
the poll-and-reconcile loop (`__init__.py`), and the privacy switch
command pipeline (`switch.py`), with theorems settling the specified
behaviors.
-/

/-! ## Shared model of Python JSON-ish values

Backend responses are parsed JSON; Python code branches on
`isinstance(data, dict)` / `isinstance(data, list)` and uses `dict.get`.
-/

/-- Python value as seen by this integration: JSON scalars, lists, dicts. -/
inductive PyVal where
  | none
  | bool (b : Bool)
  | int (n : Int)
  | str (s : String)
  | list (xs : List PyVal)
  | dict (kvs : List (String × PyVal))

/-- Python `d.get(key)`: first binding of the key, if the value is a dict. -/
def dictGet (v : PyVal) (key : String) : Option PyVal :=
  match v with
  | PyVal.dict kvs => (kvs.find? (fun p => p.1 == key)).map (fun p => p.2)
  | _ => Option.none

/-! ## Constants from `const.py` and `api.py` -/

/-- `const.py`: `API_RETRY_ATTEMPTS = 2`. -/
def API_RETRY_ATTEMPTS : Nat := 2

/-- `api.py`: 30-minute safety margin in milliseconds (`1800000`). -/
def SAFETY_MARGIN_MS : Int := 1800000

/-- `const.py`: `PRIVACY_ON = "on"`. -/
def PRIVACY_ON : String := "on"

/-- `const.py`: `PRIVACY_OFF = "off"`. -/
def PRIVACY_OFF : String := "off"

/-! ## Token manager (`EzvizCloudChinaApi.ensure_token_valid` / `get_token`)

The client fields involved are `access_token` (initially `None`),
`token_expires_at` (milliseconds; becomes `None` when a refresh response
omits `expireTime`), and the asyncio `_token_lock`, a non-reentrant lock
modelled as a Boolean `token_lock` (held / free). Awaiting the lock while
it is already held by the same single task never completes; the outcome
`blocked` models that.

The network round trip performed by the refresh (`self._request` on the
token endpoint, which raises `EzvizCloudChinaApiError` after its own
retries on network errors and malformed responses) is a parameter
`FetchResult` of the model.
-/

/-- Result of the `_request` call made by `get_token`: either the request
machinery raised (network error, non-200, malformed JSON) or it returned
the `data` object, from which `get_token` reads the optional `accessToken`
and `expireTime` fields. -/
inductive FetchResult where
  | failure
  | success (accessToken : Option String) (expireTime : Option Int)
deriving Repr, DecidableEq

/-- Observable outcome of a token operation: returned a token, raised
`EzvizCloudChinaApiError` (auth error), raised an uncaught Python
`TypeError` (arithmetic on `None`), or deadlocked awaiting the
non-reentrant token lock. -/
inductive TokenOutcome where
  | ok (token : String)
  | authError
  | pyError
  | blocked
deriving Repr, DecidableEq

/-- Token-related state of the `EzvizCloudChinaApi` instance. -/
structure TokenState where
  access_token : Option String
  token_expires_at : Option Int
  token_lock : Bool
deriving Repr, DecidableEq

/-- Release the token lock (leaving an `async with` block, normally or by
exception). -/
def unlockTok (st : TokenState) : TokenState := { st with token_lock := false }

/-- Body of `get_token` after the early-return guard: issue the refresh
request, assign `self.access_token = data.get("accessToken")` and
`self.token_expires_at = data.get("expireTime")`, then raise if the token
field is missing (the raise is re-wrapped by the surrounding
`except Exception` into `EzvizCloudChinaApiError`). Precondition: the
lock is held by this call; it is released on every exit path. -/
def fetchTokenStep (stL : TokenState) (fetch : FetchResult) : TokenOutcome × TokenState :=
  match fetch with
  | FetchResult.failure => (TokenOutcome.authError, unlockTok stL)
  | FetchResult.success tokOpt expOpt =>
    let st2 : TokenState := { stL with access_token := tokOpt, token_expires_at := expOpt }
    match tokOpt with
    | Option.none => (TokenOutcome.authError, unlockTok st2)
    | Option.some tok => (TokenOutcome.ok tok, unlockTok st2)

/-- `EzvizCloudChinaApi.get_token(force_refresh)` (`api.py` lines 172-198):
acquires `self._token_lock` (blocking forever if already held by the same
task), returns the stored token when not forced, present, and
`current_time < token_expires_at - 1800000`, and otherwise runs the
refresh request. -/
def getToken (st : TokenState) (current_time : Int) (force_refresh : Bool)
    (fetch : FetchResult) : TokenOutcome × TokenState :=
  if st.token_lock then (TokenOutcome.blocked, st)
  else
    let stL : TokenState := { st with token_lock := true }
    match force_refresh, stL.access_token with
    | false, Option.some tok =>
      match stL.token_expires_at with
      | Option.none => (TokenOutcome.pyError, unlockTok stL)
      | Option.some e =>
        if current_time < e - SAFETY_MARGIN_MS then (TokenOutcome.ok tok, unlockTok stL)
        else fetchTokenStep stL fetch
    | _, _ => fetchTokenStep stL fetch

/-- `EzvizCloudChinaApi.ensure_token_valid` (`api.py` lines 159-170):
acquires `self._token_lock`, and when the token is missing or
`current_time > token_expires_at - 1800000` it awaits `self.get_token()`
while still holding that same non-reentrant lock. -/
def ensureTokenValid (st : TokenState) (current_time : Int)
    (fetch : FetchResult) : TokenOutcome × TokenState :=
  if st.token_lock then (TokenOutcome.blocked, st)
  else
    let stL : TokenState := { st with token_lock := true }
    let needsRefresh : Option Bool :=
      match stL.access_token, stL.token_expires_at with
      | Option.none, _ => Option.some true
      | Option.some _, Option.none => Option.none
      | Option.some _, Option.some e => Option.some (decide (current_time > e - SAFETY_MARGIN_MS))
    match needsRefresh with
    | Option.none => (TokenOutcome.pyError, unlockTok stL)
    | Option.some true =>
      match getToken stL current_time false fetch with
      | (TokenOutcome.blocked, st2) => (TokenOutcome.blocked, st2)
      | (TokenOutcome.ok _, st2) => (TokenOutcome.ok (st2.access_token.getD ""), unlockTok st2)
      | (o, st2) => (o, unlockTok st2)
    | Option.some false => (TokenOutcome.ok (stL.access_token.getD ""), unlockTok stL)

/-- Concrete stored credential for the margin scenario: token present,
expiry 600000 ms (10 minutes) after the chosen current time, lock free. -/
def c1TokenState : TokenState :=
  { access_token := Option.some "token-abc"
    token_expires_at := Option.some 1700000600000
    token_lock := false }

/-- Concrete stored credential for the failed-refresh scenario. -/
def c3TokenState : TokenState :=
  { access_token := Option.some "stale-token-xyz"
    token_expires_at := Option.some 0
    token_lock := false }

/-! ## Request engine (`EzvizCloudChinaApi._request`, `api.py` lines 48-157)

One backend round trip is one element of a response trace, consumed in
order. A non-"200" application code, a non-200 HTTP status, and a JSON
parse failure all raise inside the big `try`; those raises are caught by
the trailing `except Exception` handler, whose own retry call sits outside
the `try` (so a failure of that second call propagates). Timeouts and
transport errors of the round trip are caught by their dedicated handlers,
whose retry calls also sit outside the `try`. The forced token refresh
performed on application code `"10002"` for non-token endpoints is
recorded in the `refreshes` count. Backoff sleeps are not modelled.
-/

/-- One backend round trip as observed by `_request`. -/
inductive HttpResponse where
  | httpError (status : Nat)
  | badJson
  | app (code : String) (data : PyVal)
  | timeoutErr
  | clientError

/-- Result of a `_request` call tree: `outcome` is the returned `data`
field or `Option.none` when `EzvizCloudChinaApiError` was raised,
`refreshes` counts `get_token(force_refresh=True)` calls, `attempts`
counts backend round trips, `rest` is the unconsumed response trace. -/
structure ReqResult where
  outcome : Option PyVal
  refreshes : Nat
  attempts : Nat
  rest : List HttpResponse

/-- `EzvizCloudChinaApi._request(url, ..., retry_count)`: `isTokenUrl`
states whether `url` is the token endpoint. An empty trace means the
backend gave no further answer; the model reports an error without an
attempt in that case. -/
def requestModel (isTokenUrl : Bool) (responses : List HttpResponse)
    (retry_count : Nat) : ReqResult :=
  match responses with
  | [] => { outcome := Option.none, refreshes := 0, attempts := 0, rest := [] }
  | r :: rest =>
    match r with
    | HttpResponse.app code data =>
      if code == "200" then
        { outcome := Option.some data, refreshes := 0, attempts := 1, rest := rest }
      else
        let refreshHere : Nat := if code == "10002" && !isTokenUrl then 1 else 0
        if _h : retry_count < API_RETRY_ATTEMPTS then
          let s1 := requestModel isTokenUrl rest (retry_count + 1)
          match s1.outcome with
          | Option.some d =>
            { outcome := Option.some d, refreshes := refreshHere + s1.refreshes
              attempts := 1 + s1.attempts, rest := s1.rest }
          | Option.none =>
            let s2 := requestModel isTokenUrl s1.rest (retry_count + 1)
            { outcome := s2.outcome, refreshes := refreshHere + s1.refreshes + s2.refreshes
              attempts := 1 + s1.attempts + s2.attempts, rest := s2.rest }
        else
          { outcome := Option.none, refreshes := refreshHere, attempts := 1, rest := rest }
    | HttpResponse.httpError _ =>
      if _h : retry_count < API_RETRY_ATTEMPTS then
        let s1 := requestModel isTokenUrl rest (retry_count + 1)
        match s1.outcome with
        | Option.some d =>
          { outcome := Option.some d, refreshes := s1.refreshes
            attempts := 1 + s1.attempts, rest := s1.rest }
        | Option.none =>
          let s2 := requestModel isTokenUrl s1.rest (retry_count + 1)
          { outcome := s2.outcome, refreshes := s1.refreshes + s2.refreshes
            attempts := 1 + s1.attempts + s2.attempts, rest := s2.rest }
      else
        { outcome := Option.none, refreshes := 0, attempts := 1, rest := rest }
    | HttpResponse.badJson =>
      if _h : retry_count < API_RETRY_ATTEMPTS then
        let s2 := requestModel isTokenUrl rest (retry_count + 1)
        { outcome := s2.outcome, refreshes := s2.refreshes
          attempts := 1 + s2.attempts, rest := s2.rest }
      else
        { outcome := Option.none, refreshes := 0, attempts := 1, rest := rest }
    | HttpResponse.timeoutErr =>
      if _h : retry_count < API_RETRY_ATTEMPTS then
        let s2 := requestModel isTokenUrl rest (retry_count + 1)
        { outcome := s2.outcome, refreshes := s2.refreshes
          attempts := 1 + s2.attempts, rest := s2.rest }
      else
        { outcome := Option.none, refreshes := 0, attempts := 1, rest := rest }
    | HttpResponse.clientError =>
      if _h : retry_count < API_RETRY_ATTEMPTS then
        let s2 := requestModel isTokenUrl rest (retry_count + 1)
        { outcome := s2.outcome, refreshes := s2.refreshes
          attempts := 1 + s2.attempts, rest := s2.rest }
      else
        { outcome := Option.none, refreshes := 0, attempts := 1, rest := rest }
termination_by API_RETRY_ATTEMPTS - retry_count
decreasing_by all_goals omega

/-! ## Device API facade (`api.py` lines 200-297)

`get_devices` response-shape normalization and `set_privacy` with its
confirmatory read. The `ensure_token_valid` call at the top of each
facade operation is the token model above; the facade models take the
backend round-trip results as parameters.
-/

/-- Shape normalization in `EzvizCloudChinaApi.get_devices` (`api.py`
lines 210-221): a dict containing `"deviceInfos"` yields that field, a
bare list is passed through, anything else degrades to the empty list
with a logged warning. -/
def getDevicesNormalize (data : PyVal) : PyVal :=
  match data with
  | PyVal.dict kvs =>
    if (kvs.find? (fun p => p.1 == "deviceInfos")).isSome then
      (dictGet (PyVal.dict kvs) "deviceInfos").getD (PyVal.list [])
    else PyVal.list []
  | PyVal.list xs => PyVal.list xs
  | _ => PyVal.list []

/-- Shape classifier for the normalization: the two accepted shapes are a
dict containing the `"deviceInfos"` key and a bare list. -/
def recognizedShape : PyVal → Bool
  | PyVal.dict kvs => (kvs.find? (fun p => p.1 == "deviceInfos")).isSome
  | PyVal.list _ => true
  | _ => false

/-- Full `get_devices` outcome: on `EzvizCloudChinaApiError` from the
request engine it returns the empty list (`api.py` lines 222-224),
otherwise it normalizes the returned data. -/
def getDevicesOp (reqOutcome : Option PyVal) : PyVal :=
  match reqOutcome with
  | Option.none => PyVal.list []
  | Option.some data => getDevicesNormalize data

/-- One entry of the per-connection device store
`hass.data[DOMAIN][entry_id]["devices"][serial]`: the last polled
privacy status (`"on"` / `"off"`) and the raw device info dict. -/
structure DeviceRecord where
  privacy_status : String
  info : PyVal

/-- The per-connection device store: a Python dict keyed by serial,
modelled as an association list without duplicate keys. -/
abbrev DeviceMap := List (String × DeviceRecord)

/-- Python dict lookup `m.get(k)` on the device store. -/
def mapLookup (m : DeviceMap) (k : String) : Option DeviceRecord :=
  (m.find? (fun p => p.1 == k)).map (fun p => p.2)

/-- Python dict assignment `m[k] = v`: replace the binding in place when
the key is present, append otherwise. -/
def setKey : DeviceMap → String → DeviceRecord → DeviceMap
  | [], k, v => [(k, v)]
  | p :: t, k, v => if p.1 == k then (k, v) :: t else p :: setKey t k v

/-- Steps `set_privacy` performs after `ensure_token_valid`, in order. -/
inductive SetPrivacyAction where
  | remoteSet (enable : Bool)
  | delay (ms : Nat)
  | verifyRead
deriving Repr, DecidableEq

/-- `EzvizCloudChinaApi.set_privacy` (`api.py` lines 256-297): issues the
set request (`setRes`: the round-trip result, `Option.none` when the
request engine raised), then a 0.2 s sleep, then a confirmatory
`get_privacy_status` read (`verifyRes`: `Option.none` when verification
raised). Every branch after a successful set returns `True`; the client
holds no device cache, so the passed-through device map is returned
unchanged. Result: (returned Boolean, device cache, performed actions). -/
def setPrivacy (enable : Bool) (setRes : Option PyVal) (verifyRes : Option Bool)
    (devices : DeviceMap) :
    Bool × DeviceMap × List SetPrivacyAction :=
  match setRes with
  | Option.none => (false, devices, [SetPrivacyAction.remoteSet enable])
  | Option.some _ =>
    match verifyRes with
    | Option.some current =>
      if current == enable then
        (true, devices,
          [SetPrivacyAction.remoteSet enable, SetPrivacyAction.delay 200, SetPrivacyAction.verifyRead])
      else
        (true, devices,
          [SetPrivacyAction.remoteSet enable, SetPrivacyAction.delay 200, SetPrivacyAction.verifyRead])
    | Option.none =>
      (true, devices,
        [SetPrivacyAction.remoteSet enable, SetPrivacyAction.delay 200, SetPrivacyAction.verifyRead])

/-! ## Poll-and-reconcile loop (`__init__.py` `update_devices`, lines 292-408)

One poll pass, parametrized by the device-list result and a function
giving each serial's polled privacy status. The pass emits events
(callback invocation, bus event, webhook) and issues backend calls
(one device-list fetch, one privacy-status fetch per configured serial
observed in the list). `lastUpdateWritten` records whether the pass
reached the final `ezviz_data["last_update"] = end_time` assignment.
-/

/-- Backend calls issued during a poll pass. -/
inductive PollApiCall where
  | deviceList
  | privacyStatus (serial : String)
deriving Repr, DecidableEq

/-- Notifications emitted by a poll pass when a status change is seen. -/
inductive PollEvent where
  | callbackInvoked (serial : String) (newStatus : String)
  | eventFired (serial : String) (oldStatus newStatus : String)
  | webhookSent (serial : String)
deriving Repr, DecidableEq

/-- Accumulator threaded through the per-device loop of a poll pass. -/
structure PollAcc where
  map : DeviceMap
  events : List PollEvent
  calls : List PollApiCall

/-- Result of one `update_devices` pass. -/
structure PollResult where
  map : DeviceMap
  events : List PollEvent
  calls : List PollApiCall
  lastUpdateWritten : Bool

/-- Body of the `for device in devices` loop (`__init__.py` lines
322-396): skip non-dict entries and serials that are falsy or not in the
configured allow-list; otherwise fetch the privacy status, insert a fresh
record for an unseen serial (no notification), and for a seen serial
notify on a status change and always refresh the stored `info`. -/
def processDevice (configured : List String) (hasCallback hasWebhook : Bool)
    (privacyOf : String → Bool) (acc : PollAcc) (device : PyVal) : PollAcc :=
  match device with
  | PyVal.dict kvs =>
    match dictGet (PyVal.dict kvs) "deviceSerial" with
    | Option.some (PyVal.str sn) =>
      if sn != "" && configured.contains sn then
        let status := if privacyOf sn then PRIVACY_ON else PRIVACY_OFF
        let calls := acc.calls ++ [PollApiCall.privacyStatus sn]
        match mapLookup acc.map sn with
        | Option.none =>
          { map := setKey acc.map sn { privacy_status := status, info := device }
            events := acc.events, calls := calls }
        | Option.some oldRec =>
          if oldRec.privacy_status != status then
            let evs := acc.events
              ++ (if hasCallback then [PollEvent.callbackInvoked sn status] else [])
              ++ [PollEvent.eventFired sn oldRec.privacy_status status]
              ++ (if hasWebhook then [PollEvent.webhookSent sn] else [])
            { map := setKey acc.map sn { privacy_status := status, info := device }
              events := evs, calls := calls }
          else
            { map := setKey acc.map sn { privacy_status := oldRec.privacy_status, info := device }
              events := acc.events, calls := calls }
      else acc
    | _ => acc
  | _ => acc

/-- `update_devices(hass, entry)` (`__init__.py` lines 292-408): with an
empty configured allow-list the pass returns before any backend call;
otherwise it fetches the device list (`listData` is the value
`client.get_devices()` returned), bails out when that value is not a
list, and else runs the per-device loop and finally records the update
time. -/
def updateDevices (configured : List String) (hasCallback hasWebhook : Bool)
    (listData : PyVal) (privacyOf : String → Bool) (devices : DeviceMap) : PollResult :=
  if configured.isEmpty then
    { map := devices, events := [], calls := [], lastUpdateWritten := false }
  else
    match listData with
    | PyVal.list devs =>
      let acc := devs.foldl (processDevice configured hasCallback hasWebhook privacyOf)
        { map := devices, events := [], calls := [PollApiCall.deviceList] }
      { map := acc.map, events := acc.events, calls := acc.calls, lastUpdateWritten := true }
    | _ =>
      { map := devices, events := [], calls := [PollApiCall.deviceList], lastUpdateWritten := false }

/-! ## Setup-time polling interval (`__init__.py` `async_setup_entry`,
lines 201-266) -/

/-- `const.py`: `DEFAULT_UPDATE_INTERVAL = 20`. -/
def DEFAULT_UPDATE_INTERVAL : Nat := 20

/-- Interval reduction in `async_setup_entry` (`__init__.py` lines
238-240): `if update_interval > 60: update_interval = 30`. -/
def effectiveUpdateInterval (update_interval : Nat) : Nat :=
  if update_interval > 60 then 30 else update_interval

/-- Ordered setup steps of `async_setup_entry` relevant to polling. -/
inductive SetupStep where
  | testTokenCall
  | scheduleTimer (seconds : Nat)
  | initialPollPass
deriving Repr, DecidableEq

/-- `async_setup_entry`: initial `get_token` connection test, timer
registration at the effective interval, then one eager `update_devices`
pass before the first tick. -/
def setupEntrySteps (update_interval : Nat) : List SetupStep :=
  [SetupStep.testTokenCall,
   SetupStep.scheduleTimer (effectiveUpdateInterval update_interval),
   SetupStep.initialPollPass]

/-! ## Privacy switch command pipeline (`switch.py` `EzvizPrivacySwitch`)

Per-entity state and the turn-on / turn-off handlers. The remote command
execution `_execute_privacy_command` (its retries and verification) is
abstracted as its Boolean result `cmdSuccess` plus the number of remote
calls it issued `cmdCalls`; the command-timestamp bookkeeping is not
modelled. An `async_write_ha_state` call is the signal to the
presentation layer and is recorded as a `writeState` event carrying the
displayed value written.
-/

/-- Mutable entity state of `EzvizPrivacySwitch`. -/
structure SwitchState where
  is_on : Bool
  icon : String
  pending_state : Option String
  is_turning_on : Bool
  is_turning_off : Bool
deriving Repr, DecidableEq

/-- Signal to the presentation layer: one `async_write_ha_state` call
with the displayed on/off value at that moment. -/
inductive SwitchEvent where
  | writeState (is_on : Bool)
deriving Repr, DecidableEq

/-- Result of a turn-on / turn-off handler: final entity state, the
signals written, the number of remote API calls issued, and whether the
handler raised `HomeAssistantError`. -/
structure TurnOutcome where
  state : SwitchState
  events : List SwitchEvent
  remoteCalls : Nat
  raised : Bool
deriving Repr, DecidableEq

/-- `EzvizPrivacySwitch._revert_state` (`switch.py` lines 281-300): read
the cached record for this serial (missing record or missing field
defaults to `PRIVACY_OFF`), restore the displayed state and icon to that
actual value, clear the pending state, and write the restored state. -/
def revertState (devices : DeviceMap) (device_sn : String) (st : SwitchState) :
    SwitchState × List SwitchEvent :=
  let actual := ((mapLookup devices device_sn).map
    (fun rec => rec.privacy_status)).getD PRIVACY_OFF
  let actual_is_on := actual == PRIVACY_ON
  ({ st with is_on := actual_is_on
             icon := if actual_is_on then "mdi:eye-off" else "mdi:eye"
             pending_state := Option.none },
   [SwitchEvent.writeState actual_is_on])

/-- `EzvizPrivacySwitch.async_turn_on` (`switch.py` lines 161-194): drop
the command when a turn-on is already in flight; otherwise set the
in-flight flag and pending state, optimistically display ON and write it,
run the remote command, and on failure revert to the cached actual state
(writing the reverted value) and raise; the in-flight flag is cleared in
the `finally` block. -/
def asyncTurnOn (devices : DeviceMap) (device_sn : String) (st : SwitchState)
    (cmdSuccess : Bool) (cmdCalls : Nat) : TurnOutcome :=
  if st.is_turning_on then
    { state := st, events := [], remoteCalls := 0, raised := false }
  else
    let st1 : SwitchState :=
      { st with is_turning_on := true, pending_state := Option.some PRIVACY_ON
                is_on := true, icon := "mdi:eye-off" }
    if cmdSuccess then
      { state := { st1 with is_turning_on := false }
        events := [SwitchEvent.writeState true]
        remoteCalls := cmdCalls, raised := false }
    else
      let rev := revertState devices device_sn st1
      { state := { rev.1 with is_turning_on := false }
        events := [SwitchEvent.writeState true] ++ rev.2
        remoteCalls := cmdCalls, raised := true }

/-- `EzvizPrivacySwitch.async_turn_off` (`switch.py` lines 196-229):
mirror image of `asyncTurnOn` guarded by the turn-off in-flight flag. -/
def asyncTurnOff (devices : DeviceMap) (device_sn : String) (st : SwitchState)
    (cmdSuccess : Bool) (cmdCalls : Nat) : TurnOutcome :=
  if st.is_turning_off then
    { state := st, events := [], remoteCalls := 0, raised := false }
  else
    let st1 : SwitchState :=
      { st with is_turning_off := true, pending_state := Option.some PRIVACY_OFF
                is_on := false, icon := "mdi:eye" }
    if cmdSuccess then
      { state := { st1 with is_turning_off := false }
        events := [SwitchEvent.writeState false]
        remoteCalls := cmdCalls, raised := false }
    else
      let rev := revertState devices device_sn st1
      { state := { rev.1 with is_turning_off := false }
        events := [SwitchEvent.writeState false] ++ rev.2
        remoteCalls := cmdCalls, raised := true }

/-! ## Helper lemmas -/

/-- Unfolding lemma for `mapLookup` on a cons cell. -/
theorem mapLookup_cons (a : String) (b : DeviceRecord) (l : DeviceMap) (q : String) :
    mapLookup ((a, b) :: l) q = if a == q then Option.some b else mapLookup l q := by
  cases h : a == q <;> simp [mapLookup, List.find?, h]

/-- Dict assignment: looking up the assigned key gives the new value,
every other key is unaffected. -/
theorem mapLookup_setKey (m : DeviceMap) (k : String) (v : DeviceRecord) (q : String) :
    mapLookup (setKey m k v) q = if q = k then Option.some v else mapLookup m q := by
  induction m with
  | nil =>
    by_cases hq : q = k
    · subst hq; simp [setKey, mapLookup, List.find?]
    · have h1 : (k == q) = false := by simpa using fun h : k = q => hq h.symm
      simp [setKey, mapLookup, List.find?, hq, h1]
  | cons p t ih =>
    obtain ⟨a, b⟩ := p
    by_cases hak : a = k
    · subst hak
      by_cases hq : q = a
      · subst hq; simp [setKey, mapLookup_cons]
      · have h1 : (a == q) = false := by simpa using fun h : a = q => hq h.symm
        simp [setKey, mapLookup_cons, hq, h1]
    · have hak2 : (a == k) = false := by simpa using hak
      by_cases hq : q = a
      · subst hq
        have hqk : ¬ q = k := hak
        simp [setKey, hak2, mapLookup_cons, hqk]
      · have haq : (a == q) = false := by simpa using fun h : a = q => hq h.symm
        simp [setKey, hak2, mapLookup_cons, haq, ih]

/-- Key presence survives a dict assignment. -/
theorem mapLookup_setKey_isSome (m : DeviceMap) (k : String) (v : DeviceRecord)
    (q : String) (h : (mapLookup m q).isSome = true) :
    (mapLookup (setKey m k v) q).isSome = true := by
  rw [mapLookup_setKey]
  split
  · simp
  · exact h

/-- The per-device poll step only ever leaves the device map alone or
assigns one key. -/
theorem processDevice_map_shape (configured : List String) (cb wh : Bool)
    (privacyOf : String → Bool) (acc : PollAcc) (device : PyVal) :
    (processDevice configured cb wh privacyOf acc device).map = acc.map ∨
    ∃ sn rec, (processDevice configured cb wh privacyOf acc device).map = setKey acc.map sn rec := by
  unfold processDevice
  repeat' split
  all_goals first
    | exact Or.inl rfl
    | exact Or.inr ⟨_, _, rfl⟩
    | (dsimp only; split <;> exact Or.inr ⟨_, _, rfl⟩)

/-- The per-device poll step never loses a key of the device map. -/
theorem processDevice_preserves_key (configured : List String) (cb wh : Bool)
    (privacyOf : String → Bool) (acc : PollAcc) (device : PyVal) (q : String)
    (h : (mapLookup acc.map q).isSome = true) :
    (mapLookup (processDevice configured cb wh privacyOf acc device).map q).isSome = true := by
  rcases processDevice_map_shape configured cb wh privacyOf acc device with heq | ⟨sn, rec, heq⟩
  · rw [heq]; exact h
  · rw [heq]; exact mapLookup_setKey_isSome _ _ _ _ h

/-- Folding the per-device poll step over a fetched list never loses a
key of the device map. -/
theorem foldl_processDevice_preserves_key (configured : List String) (cb wh : Bool)
    (privacyOf : String → Bool) (devs : List PyVal) (acc : PollAcc) (q : String)
    (h : (mapLookup acc.map q).isSome = true) :
    (mapLookup (devs.foldl (processDevice configured cb wh privacyOf) acc).map q).isSome = true := by
  induction devs generalizing acc with
  | nil => simpa using h
  | cons d t ih =>
    exact ih _ (processDevice_preserves_key configured cb wh privacyOf acc d q h)

/-! ## Claim theorems -/

/-- C1: for a stored token whose expiry is 10 minutes away (inside the
30-minute safety margin), the claim says `ensure_token_valid` performs
exactly one refresh and returns the new token. The code instead
deadlocks: `ensure_token_valid` still holds the non-reentrant
`_token_lock` when it awaits `get_token`, which blocks forever acquiring
that same lock, so no refresh completes and nothing is returned. -/
theorem ensureTokenValid_blocks_on_stale_token :
    ensureTokenValid c1TokenState 1700000000000
      (FetchResult.success (Option.some "fresh-token") (Option.some 1700604800000)) =
    (TokenOutcome.blocked, { c1TokenState with token_lock := true }) := by
  decide

/-- C2: a non-token request answered with application code "10002"
(token expired) and then a normal "200" answer performs exactly one
forced token refresh and exactly one automatic retry of the original
request, and returns the data of the successful retry. -/
theorem request_token_expired_single_refresh_and_retry (dummy d : PyVal) :
    requestModel false [HttpResponse.app "10002" dummy, HttpResponse.app "200" d] 0 =
      { outcome := Option.some d, refreshes := 1, attempts := 2, rest := [] } := by
  simp [requestModel, API_RETRY_ATTEMPTS]

/-- C3 (counterexample): a refresh whose response lacks the token field
makes `get_token` raise the auth error, but the previously stored
credential is NOT left unchanged: `self.access_token` is overwritten
with `None` before the raise, evicting the stale token. -/
theorem getToken_missing_token_field_evicts :
    (getToken c3TokenState 1700000000000 false
      (FetchResult.success Option.none Option.none)).1 = TokenOutcome.authError ∧
    (getToken c3TokenState 1700000000000 false
      (FetchResult.success Option.none Option.none)).2.access_token = Option.none ∧
    c3TokenState.access_token = Option.some "stale-token-xyz" := by
  decide

/-- C3 (amended): when the refresh HTTP call itself fails (network error
or malformed response, i.e. `_request` raised), `get_token` fails with
the auth error and the stored credential is unchanged; but when the call
succeeds with a response missing the token field, `get_token` fails with
the auth error after overwriting the stored credential with the missing
fields (the token becomes `None`), so the stale credential is evicted in
that failure mode. -/
theorem getToken_failed_refresh_credential_effects (st : TokenState) (now : Int)
    (hLock : st.token_lock = false) :
    ((getToken st now true FetchResult.failure).1 = TokenOutcome.authError ∧
     (getToken st now true FetchResult.failure).2.access_token = st.access_token ∧
     (getToken st now true FetchResult.failure).2.token_expires_at = st.token_expires_at) ∧
    (∀ expOpt : Option Int,
      (getToken st now true (FetchResult.success Option.none expOpt)).1 = TokenOutcome.authError ∧
      (getToken st now true (FetchResult.success Option.none expOpt)).2.access_token = Option.none ∧
      (getToken st now true (FetchResult.success Option.none expOpt)).2.token_expires_at = expOpt) := by
  simp [getToken, fetchTokenStep, unlockTok, hLock]

/-- Witness for C3 (amended) at a concrete stored credential. -/
theorem getToken_failed_refresh_credential_effects_witness :
    (getToken c3TokenState 1700000000000 true FetchResult.failure).2.access_token =
      c3TokenState.access_token ∧
    (getToken c3TokenState 1700000000000 true
      (FetchResult.success Option.none Option.none)).2.access_token = Option.none :=
  ⟨(getToken_failed_refresh_credential_effects c3TokenState 1700000000000 rfl).1.2.1,
   ((getToken_failed_refresh_credential_effects c3TokenState 1700000000000 rfl).2 Option.none).2.1⟩

/-- C4: whenever the remote set call of `set_privacy` succeeds, the
operation returns `True`, for every outcome of the confirmatory read
(matching, opposite, or raising); the action order is set call, fixed
0.2 s delay, confirmatory read; and the device cache is not written. -/
theorem setPrivacy_success_regardless_of_verification (enable : Bool) (d : PyVal)
    (verifyRes : Option Bool) (devices : DeviceMap) :
    (setPrivacy enable (Option.some d) verifyRes devices).1 = true ∧
    (setPrivacy enable (Option.some d) verifyRes devices).2.1 = devices ∧
    (setPrivacy enable (Option.some d) verifyRes devices).2.2 =
      [SetPrivacyAction.remoteSet enable, SetPrivacyAction.delay 200,
       SetPrivacyAction.verifyRead] := by
  cases verifyRes with
  | none => simp [setPrivacy]
  | some b => by_cases hb : (b == enable) = true <;> simp [setPrivacy, hb]

/-- C5: `get_devices` normalizes a dict wrapping `"deviceInfos"` to that
list, passes a bare list through unchanged, and degrades every
unrecognized shape (for example the empty dict) to the empty list. -/
theorem getDevices_shape_normalization (xs : List PyVal) :
    getDevicesNormalize (PyVal.dict [("deviceInfos", PyVal.list xs)]) = PyVal.list xs ∧
    getDevicesNormalize (PyVal.list xs) = PyVal.list xs ∧
    getDevicesNormalize (PyVal.dict []) = PyVal.list [] ∧
    (∀ v : PyVal, recognizedShape v = false → getDevicesNormalize v = PyVal.list []) := by
  refine ⟨?_, rfl, rfl, ?_⟩
  · simp [getDevicesNormalize, dictGet, List.find?]
  · intro v hv
    cases v with
    | dict kvs =>
      have hfind : (kvs.find? (fun p => p.1 == "deviceInfos")).isSome = false := hv
      simp [getDevicesNormalize, hfind]
    | list ys => simp [recognizedShape] at hv
    | none => rfl
    | bool b => rfl
    | int n => rfl
    | str s => rfl

/-- Witness for C5 at the spec scenarios. -/
theorem getDevices_shape_normalization_witness :
    getDevicesNormalize
        (PyVal.dict [("deviceInfos", PyVal.list [PyVal.dict [("deviceSerial", PyVal.str "A1")]])]) =
      PyVal.list [PyVal.dict [("deviceSerial", PyVal.str "A1")]] ∧
    getDevicesNormalize (PyVal.dict []) = PyVal.list [] :=
  ⟨(getDevices_shape_normalization [PyVal.dict [("deviceSerial", PyVal.str "A1")]]).1,
   (getDevices_shape_normalization []).2.2.2 (PyVal.dict []) rfl⟩

/-- C6: a toggle whose remote command execution fails (in either
direction) reverts the displayed state to the cached actual value of the
DeviceRecord for that serial, clears the pending state, and signals the
reverted value with a state write after the optimistic one. -/
theorem toggle_failure_reverts_to_cached (devices : DeviceMap) (sn : String)
    (stOn stOff : SwitchState) (rec : DeviceRecord) (nOn nOff : Nat)
    (hOn : stOn.is_turning_on = false) (hOff : stOff.is_turning_off = false)
    (hRec : mapLookup devices sn = Option.some rec) :
    ((asyncTurnOn devices sn stOn false nOn).state.is_on = (rec.privacy_status == PRIVACY_ON) ∧
     (asyncTurnOn devices sn stOn false nOn).state.pending_state = Option.none ∧
     (asyncTurnOn devices sn stOn false nOn).events =
       [SwitchEvent.writeState true,
        SwitchEvent.writeState (rec.privacy_status == PRIVACY_ON)]) ∧
    ((asyncTurnOff devices sn stOff false nOff).state.is_on = (rec.privacy_status == PRIVACY_ON) ∧
     (asyncTurnOff devices sn stOff false nOff).state.pending_state = Option.none ∧
     (asyncTurnOff devices sn stOff false nOff).events =
       [SwitchEvent.writeState false,
        SwitchEvent.writeState (rec.privacy_status == PRIVACY_ON)]) := by
  simp [asyncTurnOn, asyncTurnOff, revertState, hOn, hOff, hRec]

/-- Idle switch entity state for witnesses. -/
def swIdle : SwitchState :=
  { is_on := false, icon := "mdi:eye", pending_state := Option.none
    is_turning_on := false, is_turning_off := false }

/-- One-device cache with privacy ON for the C6 witness. -/
def dmRevert : DeviceMap := [("CAM1", { privacy_status := PRIVACY_ON, info := PyVal.none })]

/-- Witness for C6: failed toggles on a device cached ON bounce the
displayed state back to ON. -/
theorem toggle_failure_reverts_to_cached_witness :
    ((asyncTurnOn dmRevert "CAM1" swIdle false 3).state.is_on = (PRIVACY_ON == PRIVACY_ON) ∧
     (asyncTurnOn dmRevert "CAM1" swIdle false 3).state.pending_state = Option.none ∧
     (asyncTurnOn dmRevert "CAM1" swIdle false 3).events =
       [SwitchEvent.writeState true, SwitchEvent.writeState (PRIVACY_ON == PRIVACY_ON)]) ∧
    ((asyncTurnOff dmRevert "CAM1" swIdle false 3).state.is_on = (PRIVACY_ON == PRIVACY_ON) ∧
     (asyncTurnOff dmRevert "CAM1" swIdle false 3).state.pending_state = Option.none ∧
     (asyncTurnOff dmRevert "CAM1" swIdle false 3).events =
       [SwitchEvent.writeState false, SwitchEvent.writeState (PRIVACY_ON == PRIVACY_ON)]) :=
  toggle_failure_reverts_to_cached dmRevert "CAM1" swIdle swIdle
    { privacy_status := PRIVACY_ON, info := PyVal.none } 3 3 rfl rfl rfl

/-- C7: a poll pass with an empty configured device allow-list is a
complete no-op: no backend calls, no events, the device map and the
last-update marker untouched. -/
theorem updateDevices_empty_allowlist_noop (cb wh : Bool) (listData : PyVal)
    (privacyOf : String → Bool) (devices : DeviceMap) :
    updateDevices [] cb wh listData privacyOf devices =
      { map := devices, events := [], calls := [], lastUpdateWritten := false } := rfl

/-- C8: the claim says every configured polling interval is clamped to
at most 30 seconds. The code only reduces values above 60 to 30
(`if update_interval > 60: update_interval = 30`), so a configured 45 s
interval is scheduled as 45 s, above the clamp its own comment states;
the eager initial poll pass after timer registration does hold. -/
theorem updateInterval_45_exceeds_claimed_clamp :
    effectiveUpdateInterval 45 = 45 ∧ ¬(effectiveUpdateInterval 45 ≤ 30) ∧
    effectiveUpdateInterval 61 = 30 ∧
    setupEntrySteps 45 =
      [SetupStep.testTokenCall, SetupStep.scheduleTimer 45, SetupStep.initialPollPass] := by
  decide

/-- C9: the per-connection device map only grows: every serial with a
record before a poll pass still has a record after it, whatever the
fetched list, configuration and polled statuses are. -/
theorem updateDevices_device_map_monotone (configured : List String) (cb wh : Bool)
    (listData : PyVal) (privacyOf : String → Bool) (devices : DeviceMap) (q : String)
    (h : (mapLookup devices q).isSome = true) :
    (mapLookup (updateDevices configured cb wh listData privacyOf devices).map q).isSome = true := by
  unfold updateDevices
  cases hc : configured.isEmpty
  · simp only [hc, Bool.false_eq_true, if_false]
    cases listData <;> simp only [] <;> first
      | exact h
      | exact foldl_processDevice_preserves_key configured cb wh privacyOf _ _ q h
  · simpa [hc] using h

/-- One-device cache for the C9 witness. -/
def dmGrow : DeviceMap := [("A1", { privacy_status := PRIVACY_OFF, info := PyVal.none })]

/-- Witness for C9: a pass that observes and updates serial A1 keeps its
record present. -/
theorem updateDevices_device_map_monotone_witness :
    (mapLookup (updateDevices ["A1"] true false
        (PyVal.list [PyVal.dict [("deviceSerial", PyVal.str "A1")]])
        (fun _ => true) dmGrow).map "A1").isSome = true :=
  updateDevices_device_map_monotone ["A1"] true false
    (PyVal.list [PyVal.dict [("deviceSerial", PyVal.str "A1")]]) (fun _ => true) dmGrow "A1" rfl

/-- C10: a turn-on arriving while a turn-on is already in flight (and a
turn-off while a turn-off is in flight) is dropped: the handler returns
with the entity state unchanged, no state write, and no remote call. -/
theorem duplicate_inflight_command_dropped (devices : DeviceMap) (sn : String)
    (stOn stOff : SwitchState) (r r2 : Bool) (n n2 : Nat)
    (hOn : stOn.is_turning_on = true) (hOff : stOff.is_turning_off = true) :
    asyncTurnOn devices sn stOn r n =
      { state := stOn, events := [], remoteCalls := 0, raised := false } ∧
    asyncTurnOff devices sn stOff r2 n2 =
      { state := stOff, events := [], remoteCalls := 0, raised := false } := by
  simp [asyncTurnOn, asyncTurnOff, hOn, hOff]

/-- Switch state with a turn-on in flight. -/
def swBusyOn : SwitchState :=
  { is_on := true, icon := "mdi:eye-off", pending_state := Option.some PRIVACY_ON
    is_turning_on := true, is_turning_off := false }

/-- Switch state with a turn-off in flight. -/
def swBusyOff : SwitchState :=
  { is_on := false, icon := "mdi:eye", pending_state := Option.some PRIVACY_OFF
    is_turning_on := false, is_turning_off := true }

/-- Witness for C10 at concrete in-flight states. -/
theorem duplicate_inflight_command_dropped_witness :
    asyncTurnOn [] "CAM1" swBusyOn true 5 =
      { state := swBusyOn, events := [], remoteCalls := 0, raised := false } ∧
    asyncTurnOff [] "CAM1" swBusyOff true 5 =
      { state := swBusyOff, events := [], remoteCalls := 0, raised := false } :=
  duplicate_inflight_command_dropped [] "CAM1" swBusyOn swBusyOff true true 5 5 rfl rfl
